import Mathlib

/-!
Verification of the request-handling wrapper of a small Flask text-generation
API (`app.py`).  The external model/tokenizer pair (the `transformers`
library) is modelled as an opaque handle: the tokenizer is a record of the
functions and facts the handler reads, and the generator is a function from
input ids, generation parameters and a randomness seed to an output token
row (or an exception).  Machine-level JSON values from the request body are
a small inductive `JVal`; Python exceptions are `Except String`.
-/

set_option autoImplicit false

namespace ThinModeApi

/-- JSON-like values that can appear in a request body.  Floats are modelled
as rationals; they are only carried opaquely by the handler. -/
inductive JVal where
  | jnull
  | jbool (b : Bool)
  | jint (n : Int)
  | jfloat (q : Rat)
  | jstr (s : String)
deriving DecidableEq

/-- Python truthiness (`not x` tests) of a JSON value. -/
def JVal.truthy : JVal → Bool
  | .jnull => false
  | .jbool b => b
  | .jint n => n != 0
  | .jfloat q => q != 0
  | .jstr s => !s.isEmpty

/-- Rendering used by the probe generator to expose the parameter it was
called with. -/
def JVal.render : JVal → String
  | .jnull => "None"
  | .jbool b => if b then "True" else "False"
  | .jint n => toString n
  | .jfloat q => toString q
  | .jstr s => s

/-- A parsed JSON object (the result of `request.get_json()` when it is a
dict), as an association list preserving insertion order. -/
abbrev JObj := List (String × JVal)

/-- Python `dict.get(k, dflt)`. -/
def dictGet (d : JObj) (k : String) (dflt : JVal) : JVal :=
  match d.find? (fun p => p.1 == k) with
  | some p => p.2
  | none => dflt

/-- Python `k in dict`. -/
def hasKey (d : JObj) (k : String) : Bool :=
  d.any (fun p => p.1 == k)

/-- Python `x > limit` where `limit` is an `int`: ints, bools and floats
compare numerically; comparing a `str` or `None` against an `int` raises
`TypeError`, modelled as `Except.error` with the message text. -/
def pyGtInt : JVal → Int → Except String Bool
  | .jint n, m => .ok (decide (n > m))
  | .jbool b, m => .ok (decide ((if b then (1 : Int) else 0) > m))
  | .jfloat q, m => .ok (decide (q > (m : Rat)))
  | .jstr _, _ => .error "unsupported comparison: str vs int"
  | .jnull, _ => .error "unsupported comparison: NoneType vs int"

/-- Python `str.strip()` with no arguments: remove leading and trailing
whitespace. -/
def pyStrip (s : String) : String :=
  String.mk (((s.data.dropWhile Char.isWhitespace).reverse.dropWhile Char.isWhitespace).reverse)

/-- The environment-derived configuration (`MODEL_NAME`,
`MAX_TOKENS_DEFAULT`, `MAX_TOKENS_LIMIT`); host and port do not affect the
handlers. -/
structure Config where
  MODEL_NAME : String
  MAX_TOKENS_DEFAULT : Int
  MAX_TOKENS_LIMIT : Int
deriving DecidableEq

/-- The external tokenizer: the functions and attributes the handler reads.
`encode` is `tokenizer(prompt, ...).input_ids[0]`; `attentionMask` is
`inputs.attention_mask` when present; `decode` is
`tokenizer.decode(·, skip_special_tokens=True)`. -/
structure Tokenizer where
  encode : String → List Int
  attentionMask : String → Option (List Int)
  decode : List Int → String
  vocab_size : Int
  model_max_length : Int
  pad_token : String
  eos_token : String
  pad_token_id : Int

/-- The keyword arguments the handler passes to `model.generate` besides the
input ids. -/
structure GenParams where
  maxNewTokens : JVal
  doSample : JVal
  temperature : JVal
  top_p : JVal
  padTokenId : Int
  attentionMask : Option (List Int)
deriving DecidableEq

/-- The external causal LM.  `generate` receives the input ids, the keyword
parameters and a randomness seed (the library's sampling draws); it returns
`outputs[0]` or raises. -/
structure GenModel where
  generate : List Int → GenParams → Nat → Except String (List Int)

/-- An HTTP response: status code plus the `jsonify`d body. -/
structure HResp where
  status : Nat
  body : JObj
deriving DecidableEq

/-- `jsonify({"error": msg}), status`. -/
def jsonError (status : Nat) (msg : String) : HResp :=
  { status := status, body := [("error", .jstr msg)] }

/-- Lines 73-75 of `app.py`: read `max_tokens` with the configured default,
then clamp it to `MAX_TOKENS_LIMIT` when the comparison says it exceeds the
limit.  The comparison itself can raise (non-comparable value). -/
def effectiveMaxTokens (cfg : Config) (d : JObj) : Except String JVal :=
  match pyGtInt (dictGet d "max_tokens" (.jint cfg.MAX_TOKENS_DEFAULT)) cfg.MAX_TOKENS_LIMIT with
  | .error e => .error e
  | .ok true => .ok (.jint cfg.MAX_TOKENS_LIMIT)
  | .ok false => .ok (dictGet d "max_tokens" (.jint cfg.MAX_TOKENS_DEFAULT))

/-- The keyword parameters assembled at lines 87-94 of `app.py`, given the
already clamped `max_tokens` value `mt`. -/
def mkParams (t : Tokenizer) (d : JObj) (ps : String) (mt : JVal) : GenParams :=
  { maxNewTokens := mt
    doSample := dictGet d "do_sample" (.jbool true)
    temperature := dictGet d "temperature" (.jfloat 1)
    top_p := dictGet d "top_p" (.jfloat 1)
    padTokenId := t.pad_token_id
    attentionMask := t.attentionMask ps }

/-- The 200 body built at lines 98-108 of `app.py`: decode `outputs[0]`,
slice off `len(prompt)` characters, `strip()` the slice, and report
`len(outputs[0]) - len(inputs.input_ids[0])` as `tokens_generated`. -/
def successBody (cfg : Config) (t : Tokenizer) (ps : String) (input_ids out : List Int) : JObj :=
  [("response", .jstr (pyStrip ((t.decode out).drop ps.length))),
   ("full_text", .jstr (t.decode out)),
   ("model", .jstr cfg.MODEL_NAME),
   ("tokens_generated", .jint ((out.length : Int) - (input_ids.length : Int)))]

/-- The tail of the `try` block of `generate` (lines 73-108): validate
`max_tokens` (the comparison may raise), tokenize the prompt (the tokenizer
raises `TypeError` on a non-string), call the generator, decode and shape
the body.  Any `Except.error` is the exception propagating to the handler's
catch-all. -/
def generateCore (cfg : Config) (m : GenModel) (t : Tokenizer) (d : JObj)
    (prompt : JVal) (seed : Nat) : Except String JObj :=
  match effectiveMaxTokens cfg d with
  | .error e => .error e
  | .ok mt =>
    match prompt with
    | .jstr ps =>
      match m.generate (t.encode ps) (mkParams t d ps mt) seed with
      | .error e => .error e
      | .ok out => .ok (successBody cfg t ps (t.encode ps) out)
    | _ => .error "text input must be of type str"

/-- The `POST /generate` handler (lines 55-112 of `app.py`).  `model` and
`tok` are the two module-level globals; `data` is the result of
`request.get_json()` (`none` when no JSON payload is present); `seed` feeds
the external generator's sampling. -/
def generate_route (cfg : Config) (model : Option GenModel) (tok : Option Tokenizer)
    (data : Option JObj) (seed : Nat) : HResp :=
  match model, tok with
  | some m, some t =>
    match data with
    | none => jsonError 400 "No JSON data provided"
    | some d =>
      if d.isEmpty then jsonError 400 "No JSON data provided"
      else if (dictGet d "prompt" (.jstr "")).truthy then
        match generateCore cfg m t d (dictGet d "prompt" (.jstr "")) seed with
        | .ok b => { status := 200, body := b }
        | .error msg => jsonError 500 ("Generation failed: " ++ msg)
      else jsonError 400 "No prompt provided"
  | _, _ => jsonError 500 "Model not loaded"

/-- The `GET /model-info` handler (lines 114-126 of `app.py`). -/
def model_info_route (cfg : Config) (model : Option GenModel) (tok : Option Tokenizer) : HResp :=
  match model, tok with
  | some _, some t =>
    { status := 200
      body := [("model_name", .jstr cfg.MODEL_NAME),
               ("vocab_size", .jint t.vocab_size),
               ("model_max_length", .jint t.model_max_length),
               ("pad_token", .jstr t.pad_token),
               ("eos_token", .jstr t.eos_token)] }
  | _, _ => jsonError 500 "Model not loaded"

/-- The `GET /` health check (lines 46-53 of `app.py`). -/
def health_check_route (cfg : Config) : HResp :=
  { status := 200
    body := [("status", .jstr "healthy"),
             ("model", .jstr cfg.MODEL_NAME),
             ("version", .jstr "1.0.0")] }

/-! Concrete fixtures used by counterexamples and witnesses. -/

/-- The configuration shipped with the repository's `.env` defaults:
`gpt2`, default 50 new tokens, limit 500. -/
def cfgW : Config :=
  { MODEL_NAME := "gpt2", MAX_TOKENS_DEFAULT := 50, MAX_TOKENS_LIMIT := 500 }

/-- A tiny concrete tokenizer: every prompt encodes to the single id `0`,
and every output row decodes to the fixed text "Hello world". -/
def toyTok : Tokenizer :=
  { encode := fun _ => [0]
    attentionMask := fun _ => some [1]
    decode := fun _ => "Hello world"
    vocab_size := 10
    model_max_length := 1024
    pad_token := "<pad>"
    eos_token := "<eos>"
    pad_token_id := 0 }

/-- A tiny concrete generator that always succeeds with the two-token row
`[0, 1]`, ignoring its parameters and the seed. -/
def toyModel : GenModel :=
  { generate := fun _ _ _ => .ok [0, 1] }

/-- A probe generator that raises an exception whose message records the
`max_new_tokens` value it was invoked with, so theorems about the handler's
output can observe the exact token budget handed to the external
generator. -/
def probeModel : GenModel :=
  { generate := fun _ params _ => .error ("probe max_new_tokens=" ++ params.maxNewTokens.render) }

/-- Lookup of a field of a response body (total, with explicit default). -/
def bodyGet (r : HResp) (k : String) : JVal :=
  dictGet r.body k .jnull

/-- `Except` success test. -/
def exceptOk {ε α : Type} (e : Except ε α) : Bool :=
  match e with
  | .ok _ => true
  | .error _ => false

end ThinModeApi

namespace ThinModeApi

/-- Claim C4: with the model loaded, a `POST /generate` request carrying no
JSON payload (`request.get_json()` is `None`) is answered with HTTP 400 and
body `{"error": "No JSON data provided"}`, and an empty JSON object body
`{}` receives exactly the same 400 response. -/
theorem c4_missing_body_400 :
    (∀ (cfg : Config) (m : GenModel) (t : Tokenizer) (seed : Nat),
      generate_route cfg (some m) (some t) none seed =
        jsonError 400 "No JSON data provided")
    ∧ (∀ (cfg : Config) (m : GenModel) (t : Tokenizer) (seed : Nat),
      generate_route cfg (some m) (some t) (some []) seed =
        jsonError 400 "No JSON data provided") := by
  constructor
  · intro cfg m t seed
    rfl
  · intro cfg m t seed
    rfl

/-- Claim C9: the availability check runs first, so while `model` or
`tokenizer` is still `None`, every `POST /generate` request is answered
with HTTP 500 and `{"error": "Model not loaded"}` whatever its body is —
including bodies that would otherwise draw a 400 validation response. -/
theorem c9_unloaded_500_before_validation :
    (∀ (cfg : Config) (tok : Option Tokenizer) (data : Option JObj) (seed : Nat),
      generate_route cfg none tok data seed = jsonError 500 "Model not loaded")
    ∧ (∀ (cfg : Config) (model : Option GenModel) (data : Option JObj) (seed : Nat),
      generate_route cfg model none data seed = jsonError 500 "Model not loaded") := by
  constructor
  · intro cfg tok data seed
    cases tok <;> rfl
  · intro cfg model data seed
    cases model <;> rfl

/-- Claim C7: `GET /model-info` answers HTTP 500 with
`{"error": "Model not loaded"}` while `model` or `tokenizer` is `None`, and
once both are loaded it answers 200 with `model_name`, `vocab_size`,
`model_max_length`, `pad_token` and `eos_token`. -/
theorem c7_model_info :
    (∀ (cfg : Config) (tok : Option Tokenizer),
      model_info_route cfg none tok = jsonError 500 "Model not loaded")
    ∧ (∀ (cfg : Config) (model : Option GenModel),
      model_info_route cfg model none = jsonError 500 "Model not loaded")
    ∧ (∀ (cfg : Config) (m : GenModel) (t : Tokenizer),
      model_info_route cfg (some m) (some t) =
        HResp.mk 200
          [("model_name", .jstr cfg.MODEL_NAME),
           ("vocab_size", .jint t.vocab_size),
           ("model_max_length", .jint t.model_max_length),
           ("pad_token", .jstr t.pad_token),
           ("eos_token", .jstr t.eos_token)]) := by
  refine ⟨?_, ?_, ?_⟩
  · intro cfg tok
    cases tok <;> rfl
  · intro cfg model
    cases model <;> rfl
  · intro cfg m t
    rfl

/-- Shared success-path lemma: when the body is a non-empty object whose
`prompt` entry is a non-empty string, `max_tokens` validation succeeds with
value `mt`, and the external generator returns the row `out`, the handler
answers 200 with exactly the body built at lines 103-108 of `app.py`. -/
theorem generate_route_success (cfg : Config) (m : GenModel) (t : Tokenizer) (d : JObj)
    (ps : String) (mt : JVal) (out : List Int) (seed : Nat)
    (hne : d.isEmpty = false)
    (hp : dictGet d "prompt" (.jstr "") = .jstr ps)
    (hps : ps.isEmpty = false)
    (hmt : effectiveMaxTokens cfg d = .ok mt)
    (hg : m.generate (t.encode ps) (mkParams t d ps mt) seed = .ok out) :
    generate_route cfg (some m) (some t) (some d) seed =
      HResp.mk 200 (successBody cfg t ps (t.encode ps) out) := by
  simp only [generate_route, hne, Bool.false_eq_true, if_false, hp, JVal.truthy, hps,
    Bool.not_false, if_true, generateCore, hmt]
  simp only [hg]

/-- Claim C3: with the model loaded and a non-empty JSON body whose
`prompt` entry is absent or the empty string (so `data.get("prompt", "")`
yields `""`), the handler answers HTTP 400 with an `error` field, and this
happens for every generator and tokenizer — the generator is never
invoked. -/
theorem c3_missing_prompt_400 (cfg : Config) (d : JObj)
    (hne : d.isEmpty = false)
    (hp : dictGet d "prompt" (.jstr "") = .jstr "") :
    ∀ (m : GenModel) (t : Tokenizer) (seed : Nat),
      generate_route cfg (some m) (some t) (some d) seed =
        jsonError 400 "No prompt provided" := by
  intro m t seed
  have h0 : JVal.truthy (.jstr "") = false := by decide
  simp [generate_route, hne, hp, h0]

/-- Witness for C3 at the concrete body `{"max_tokens": 10}`. -/
theorem c3_missing_prompt_400_witness :
    generate_route cfgW (some toyModel) (some toyTok)
      (some [("max_tokens", .jint 10)]) 0 = jsonError 400 "No prompt provided" :=
  c3_missing_prompt_400 cfgW [("max_tokens", .jint 10)] (by decide) (by decide)
    toyModel toyTok 0

/-- Counterexample to claim C2 as stated: on the concrete fixture the prompt
is "Hello" and the decoded output is "Hello world"; the literal slice
`decoded[len(prompt):]` is " world", but the handler's `response` field is
"world" — the code applies `.strip()` after the slice, so the response is
not the slice "with no further transformation". -/
theorem c2_response_counterexample :
    ¬ (bodyGet (generate_route cfgW (some toyModel) (some toyTok)
          (some [("prompt", .jstr "Hello")]) 0) "response" =
        .jstr ((toyTok.decode [0, 1]).drop ("Hello".length))) := by
  decide

/-- Claim C2 (amended): for every successful `POST /generate` call, the
`response` field equals the decoded output text with its first
`len(prompt)` characters removed and the result then stripped of leading
and trailing whitespace (Python `.strip()`), exactly as at line 101 of
`app.py`; the `full_text` field is the unsliced decoded text. -/
theorem c2_response_is_stripped_slice (cfg : Config) (m : GenModel) (t : Tokenizer)
    (d : JObj) (ps : String) (mt : JVal) (out : List Int) (seed : Nat)
    (hne : d.isEmpty = false)
    (hp : dictGet d "prompt" (.jstr "") = .jstr ps)
    (hps : ps.isEmpty = false)
    (hmt : effectiveMaxTokens cfg d = .ok mt)
    (hg : m.generate (t.encode ps) (mkParams t d ps mt) seed = .ok out) :
    bodyGet (generate_route cfg (some m) (some t) (some d) seed) "response" =
      .jstr (pyStrip ((t.decode out).drop ps.length)) := by
  rw [generate_route_success cfg m t d ps mt out seed hne hp hps hmt hg]
  rfl

/-- Witness for the amended C2 on the concrete fixture. -/
theorem c2_response_is_stripped_slice_witness :
    bodyGet (generate_route cfgW (some toyModel) (some toyTok)
        (some [("prompt", .jstr "Hello")]) 0) "response" =
      .jstr (pyStrip ((toyTok.decode [0, 1]).drop ("Hello".length))) :=
  c2_response_is_stripped_slice cfgW toyModel toyTok [("prompt", .jstr "Hello")]
    "Hello" (.jint 50) [0, 1] 0 (by decide) (by decide) (by decide) rfl rfl

/-- Claim C6: for every successful `POST /generate` call, the
`tokens_generated` field equals the length of the output token row minus
the length of the encoded prompt row (`len(outputs[0]) -
len(inputs.input_ids[0])`, line 107 of `app.py`). -/
theorem c6_tokens_generated (cfg : Config) (m : GenModel) (t : Tokenizer)
    (d : JObj) (ps : String) (mt : JVal) (out : List Int) (seed : Nat)
    (hne : d.isEmpty = false)
    (hp : dictGet d "prompt" (.jstr "") = .jstr ps)
    (hps : ps.isEmpty = false)
    (hmt : effectiveMaxTokens cfg d = .ok mt)
    (hg : m.generate (t.encode ps) (mkParams t d ps mt) seed = .ok out) :
    bodyGet (generate_route cfg (some m) (some t) (some d) seed) "tokens_generated" =
      .jint ((out.length : Int) - ((t.encode ps).length : Int)) := by
  rw [generate_route_success cfg m t d ps mt out seed hne hp hps hmt hg]
  rfl

/-- If a key is not in the object, `dict.get` returns its default. -/
theorem dictGet_not_hasKey (d : JObj) (k : String) (dflt : JVal)
    (h : hasKey d k = false) : dictGet d k dflt = dflt := by
  unfold dictGet
  have hn : d.find? (fun p => p.1 == k) = none := by
    rw [List.find?_eq_none]
    intro p hp hpk
    have hk : hasKey d k = true := by
      unfold hasKey
      rw [List.any_eq_true]
      exact ⟨p, hp, hpk⟩
    rw [h] at hk
    cases hk
  rw [hn]

/-- Shared probe lemma: on the success path up to the generator call, the
probe generator's exception surfaces through the catch-all as a 500 whose
message records the exact `max_new_tokens` value the handler passed to
`model.generate`. -/
theorem generate_route_probe (cfg : Config) (t : Tokenizer) (d : JObj)
    (ps : String) (mt : JVal) (seed : Nat)
    (hne : d.isEmpty = false)
    (hp : dictGet d "prompt" (.jstr "") = .jstr ps)
    (hps : ps.isEmpty = false)
    (hmt : effectiveMaxTokens cfg d = .ok mt) :
    generate_route cfg (some probeModel) (some t) (some d) seed =
      jsonError 500 ("Generation failed: " ++ ("probe max_new_tokens=" ++ mt.render)) := by
  simp only [generate_route, hne, Bool.false_eq_true, if_false, hp, JVal.truthy, hps,
    Bool.not_false, if_true, generateCore, hmt]
  simp [probeModel, mkParams]

/-- Claim C1: with the model loaded, a JSON body and a non-empty prompt,
an integer `max_tokens` above `MAX_TOKENS_LIMIT` is silently clamped: the
validated value is the limit, and the probe shows the generator is invoked
with exactly the limit as its token budget (no error response is produced
for the over-limit value); a value at or below the limit is passed through
unchanged; and whenever the generator succeeds the request completes with
status 200. -/
theorem c1_max_tokens_clamped (cfg : Config) (t : Tokenizer) (d : JObj)
    (v : Int) (ps : String) (seed : Nat)
    (hne : d.isEmpty = false)
    (hp : dictGet d "prompt" (.jstr "") = .jstr ps)
    (hps : ps.isEmpty = false)
    (hv : dictGet d "max_tokens" (.jint cfg.MAX_TOKENS_DEFAULT) = .jint v) :
    (v > cfg.MAX_TOKENS_LIMIT →
      effectiveMaxTokens cfg d = .ok (.jint cfg.MAX_TOKENS_LIMIT) ∧
      generate_route cfg (some probeModel) (some t) (some d) seed =
        jsonError 500 ("Generation failed: " ++
          ("probe max_new_tokens=" ++ JVal.render (.jint cfg.MAX_TOKENS_LIMIT))))
    ∧ (v ≤ cfg.MAX_TOKENS_LIMIT →
      effectiveMaxTokens cfg d = .ok (.jint v) ∧
      generate_route cfg (some probeModel) (some t) (some d) seed =
        jsonError 500 ("Generation failed: " ++
          ("probe max_new_tokens=" ++ JVal.render (.jint v))))
    ∧ (∀ m : GenModel,
      (∀ (ids : List Int) (params : GenParams) (s : Nat),
        exceptOk (m.generate ids params s) = true) →
      (generate_route cfg (some m) (some t) (some d) seed).status = 200) := by
  refine ⟨?_, ?_, ?_⟩
  · intro h
    have hmt : effectiveMaxTokens cfg d = .ok (.jint cfg.MAX_TOKENS_LIMIT) := by
      simp [effectiveMaxTokens, hv, pyGtInt, h]
    exact ⟨hmt, generate_route_probe cfg t d ps _ seed hne hp hps hmt⟩
  · intro h
    have hmt : effectiveMaxTokens cfg d = .ok (.jint v) := by
      simp [effectiveMaxTokens, hv, pyGtInt, not_lt.mpr h]
    exact ⟨hmt, generate_route_probe cfg t d ps _ seed hne hp hps hmt⟩
  · intro m hall
    by_cases h : v > cfg.MAX_TOKENS_LIMIT
    · have hmt : effectiveMaxTokens cfg d = .ok (.jint cfg.MAX_TOKENS_LIMIT) := by
        simp [effectiveMaxTokens, hv, pyGtInt, h]
      cases hgen : m.generate (t.encode ps) (mkParams t d ps (.jint cfg.MAX_TOKENS_LIMIT)) seed with
      | ok out =>
        rw [generate_route_success cfg m t d ps _ out seed hne hp hps hmt hgen]
      | error e =>
        have hk := hall (t.encode ps) (mkParams t d ps (.jint cfg.MAX_TOKENS_LIMIT)) seed
        rw [hgen] at hk
        exact absurd hk (by simp [exceptOk])
    · have hmt : effectiveMaxTokens cfg d = .ok (.jint v) := by
        simp [effectiveMaxTokens, hv, pyGtInt, h]
      cases hgen : m.generate (t.encode ps) (mkParams t d ps (.jint v)) seed with
      | ok out =>
        rw [generate_route_success cfg m t d ps _ out seed hne hp hps hmt hgen]
      | error e =>
        have hk := hall (t.encode ps) (mkParams t d ps (.jint v)) seed
        rw [hgen] at hk
        exact absurd hk (by simp [exceptOk])

/-- Witness for C1: with the default configuration (limit 500), a request
asking for 501 tokens reaches the generator with a budget of exactly 500. -/
theorem c1_max_tokens_clamped_witness :
    effectiveMaxTokens cfgW [("prompt", .jstr "hi"), ("max_tokens", .jint 501)] =
      .ok (.jint cfgW.MAX_TOKENS_LIMIT) ∧
    generate_route cfgW (some probeModel) (some toyTok)
        (some [("prompt", .jstr "hi"), ("max_tokens", .jint 501)]) 0 =
      jsonError 500 ("Generation failed: " ++
        ("probe max_new_tokens=" ++ JVal.render (.jint cfgW.MAX_TOKENS_LIMIT))) :=
  (c1_max_tokens_clamped cfgW toyTok [("prompt", .jstr "hi"), ("max_tokens", .jint 501)]
    501 "hi" 0 (by decide) (by decide) (by decide) (by decide)).1 (by decide)

/-- Counterexample to claim C5 as stated: under the environment
configuration `MAX_TOKENS_DEFAULT=600`, `MAX_TOKENS_LIMIT=500`, a request
omitting `max_tokens` does not receive the configured default as its token
budget — the default itself is clamped to the limit (line 74 of `app.py`
compares the defaulted value against the limit), so the generator receives
500, not 600. -/
theorem c5_default_counterexample :
    effectiveMaxTokens
        { MODEL_NAME := "gpt2", MAX_TOKENS_DEFAULT := 600, MAX_TOKENS_LIMIT := 500 }
        [("prompt", .jstr "hi")] = .ok (.jint 500) ∧
    (JVal.jint 500 ≠ JVal.jint 600) := by
  constructor
  · rfl
  · decide

/-- Claim C5 (amended): with the model loaded, a JSON body and a non-empty
prompt, a request omitting the `max_tokens` key gets the configured default
`MAX_TOKENS_DEFAULT` as its new-token budget, provided that default does
not itself exceed `MAX_TOKENS_LIMIT` (otherwise the defaulted value is
clamped to the limit like any other over-limit value). -/
theorem c5_default_max_tokens (cfg : Config) (t : Tokenizer) (d : JObj)
    (ps : String) (seed : Nat)
    (hne : d.isEmpty = false)
    (hp : dictGet d "prompt" (.jstr "") = .jstr ps)
    (hps : ps.isEmpty = false)
    (hno : hasKey d "max_tokens" = false)
    (hdl : cfg.MAX_TOKENS_DEFAULT ≤ cfg.MAX_TOKENS_LIMIT) :
    effectiveMaxTokens cfg d = .ok (.jint cfg.MAX_TOKENS_DEFAULT) ∧
    generate_route cfg (some probeModel) (some t) (some d) seed =
      jsonError 500 ("Generation failed: " ++
        ("probe max_new_tokens=" ++ JVal.render (.jint cfg.MAX_TOKENS_DEFAULT))) := by
  have hv : dictGet d "max_tokens" (.jint cfg.MAX_TOKENS_DEFAULT) =
      .jint cfg.MAX_TOKENS_DEFAULT :=
    dictGet_not_hasKey d "max_tokens" _ hno
  have hmt : effectiveMaxTokens cfg d = .ok (.jint cfg.MAX_TOKENS_DEFAULT) := by
    simp [effectiveMaxTokens, hv, pyGtInt, not_lt.mpr hdl]
  exact ⟨hmt, generate_route_probe cfg t d ps _ seed hne hp hps hmt⟩

/-- Witness for the amended C5: with the shipped configuration (default 50,
limit 500), omitting `max_tokens` hands the generator a budget of 50. -/
theorem c5_default_max_tokens_witness :
    effectiveMaxTokens cfgW [("prompt", .jstr "hi")] =
      .ok (.jint cfgW.MAX_TOKENS_DEFAULT) ∧
    generate_route cfgW (some probeModel) (some toyTok)
        (some [("prompt", .jstr "hi")]) 0 =
      jsonError 500 ("Generation failed: " ++
        ("probe max_new_tokens=" ++ JVal.render (.jint cfgW.MAX_TOKENS_DEFAULT))) :=
  c5_default_max_tokens cfgW toyTok [("prompt", .jstr "hi")] "hi" 0
    (by decide) (by decide) (by decide) (by decide) (by decide)

/-- Claim C10: with the model loaded, a JSON body and a truthy prompt, a
`max_tokens` value that is not order-comparable with an integer (a string,
or JSON `null`) makes the comparison at line 74 of `app.py` raise
`TypeError`; the handler's catch-all turns that into HTTP 500 with an
`error` message beginning "Generation failed:", not a 400 validation
error. -/
theorem c10_incomparable_max_tokens (cfg : Config) (d : JObj)
    (hne : d.isEmpty = false)
    (hpt : (dictGet d "prompt" (.jstr "")).truthy = true) :
    (∀ s : String, dictGet d "max_tokens" (.jint cfg.MAX_TOKENS_DEFAULT) = .jstr s →
      ∀ (m : GenModel) (t : Tokenizer) (seed : Nat),
        generate_route cfg (some m) (some t) (some d) seed =
          jsonError 500 ("Generation failed: " ++ "unsupported comparison: str vs int"))
    ∧ (dictGet d "max_tokens" (.jint cfg.MAX_TOKENS_DEFAULT) = .jnull →
      ∀ (m : GenModel) (t : Tokenizer) (seed : Nat),
        generate_route cfg (some m) (some t) (some d) seed =
          jsonError 500 ("Generation failed: " ++ "unsupported comparison: NoneType vs int")) := by
  constructor
  · intro s hv m t seed
    have hmt : effectiveMaxTokens cfg d = .error "unsupported comparison: str vs int" := by
      simp [effectiveMaxTokens, hv, pyGtInt]
    simp only [generate_route, hne, Bool.false_eq_true, if_false, hpt, if_true,
      generateCore, hmt]
  · intro hv m t seed
    have hmt : effectiveMaxTokens cfg d = .error "unsupported comparison: NoneType vs int" := by
      simp [effectiveMaxTokens, hv, pyGtInt]
    simp only [generate_route, hne, Bool.false_eq_true, if_false, hpt, if_true,
      generateCore, hmt]

/-- Witness for C10 at the concrete body
`{"prompt": "hi", "max_tokens": "lots"}`. -/
theorem c10_incomparable_max_tokens_witness :
    generate_route cfgW (some toyModel) (some toyTok)
        (some [("prompt", .jstr "hi"), ("max_tokens", .jstr "lots")]) 0 =
      jsonError 500 ("Generation failed: " ++ "unsupported comparison: str vs int") :=
  (c10_incomparable_max_tokens cfgW
      [("prompt", .jstr "hi"), ("max_tokens", .jstr "lots")]
      (by decide) (by decide)).1 "lots" (by decide) toyModel toyTok 0

/-- Claim C8: when the request pins `do_sample` to `false` and the external
generator is deterministic in that mode (it ignores its randomness source
whenever `do_sample=false` is among its parameters), two `POST /generate`
calls with the same body against the same loaded model state produce
identical responses. -/
theorem c8_deterministic_when_not_sampling (cfg : Config) (m : GenModel)
    (t : Tokenizer) (d : JObj)
    (hds : dictGet d "do_sample" (.jbool true) = .jbool false)
    (hdet : ∀ (ids : List Int) (params : GenParams) (s1 s2 : Nat),
      params.doSample = .jbool false → m.generate ids params s1 = m.generate ids params s2) :
    ∀ s1 s2 : Nat,
      generate_route cfg (some m) (some t) (some d) s1 =
        generate_route cfg (some m) (some t) (some d) s2 := by
  intro s1 s2
  have hcore : ∀ p, generateCore cfg m t d p s1 = generateCore cfg m t d p s2 := by
    intro p
    unfold generateCore
    cases hE : effectiveMaxTokens cfg d with
    | error e => rfl
    | ok mt =>
      cases p with
      | jstr ps =>
        simp only [hdet (t.encode ps) (mkParams t d ps mt) s1 s2 (by simp [mkParams, hds])]
      | jnull => rfl
      | jbool b => rfl
      | jint n => rfl
      | jfloat q => rfl
  simp only [generate_route]
  rw [hcore (dictGet d "prompt" (.jstr ""))]

/-- Witness for C8: the seed-ignoring concrete generator answers the body
`{"prompt": "hi", "do_sample": false}` identically for seeds 0 and 1. -/
theorem c8_deterministic_when_not_sampling_witness :
    generate_route cfgW (some toyModel) (some toyTok)
        (some [("prompt", .jstr "hi"), ("do_sample", .jbool false)]) 0 =
      generate_route cfgW (some toyModel) (some toyTok)
        (some [("prompt", .jstr "hi"), ("do_sample", .jbool false)]) 1 :=
  c8_deterministic_when_not_sampling cfgW toyModel toyTok
    [("prompt", .jstr "hi"), ("do_sample", .jbool false)]
    (by decide) (fun _ _ _ _ _ => rfl) 0 1

/-- Witness for C6 on the concrete fixture: two output tokens minus one
input token gives `tokens_generated = 1`. -/
theorem c6_tokens_generated_witness :
    bodyGet (generate_route cfgW (some toyModel) (some toyTok)
        (some [("prompt", .jstr "Hello")]) 0) "tokens_generated" =
      .jint (((2 : Nat) : Int) - ((1 : Nat) : Int)) :=
  c6_tokens_generated cfgW toyModel toyTok [("prompt", .jstr "Hello")]
    "Hello" (.jint 50) [0, 1] 0 (by decide) (by decide) (by decide) rfl rfl

end ThinModeApi
